import Mathlib

/-!
Verification development for the stellar-react-native-wallet-sdk repository.

The TypeScript sources are shallowly embedded as Lean definitions:

* `EventService` (src/core/EventService.ts): listener registration, event
  fan-out, and the subscription registry (`subscribeToAccount`,
  `subscribeToPayments`, `unsubscribe`, `unsubscribeAll`).
* `HorizonService` (src/core/HorizonService.ts): `loadAccount` and
  `submitTransaction` wrappers over the underlying ledger gateway.
* `TransactionService` (src/core/TransactionService.ts): transaction
  build / sign / submit and the composed `sendPayment` / `addTrustline`.
* `StellarWallet` (src/core/StellarWallet.ts): wallet facade holding the
  locally stored account directory.

JavaScript exceptions are modelled with `Except JsErr`; every error the
code constructs is `new Error(message)`, embedded as `JsErr.jsError`.
External collaborators (the Stellar SDK's validators and the Horizon
server) are parameters (`Sdk`, `Gateway`, `JsEnv`), so theorems quantify
over their behaviour.  Gateway interactions and stream/cancel actions are
returned as explicit traces so that claims about call counts and ordering
are expressible.
-/

set_option autoImplicit false

deriving instance DecidableEq for Except

namespace StellarSdk

/-- A JavaScript exception value.  Every `throw` in the embedded sources is
`throw new Error(message)`, so a single constructor carrying the message
is a faithful model of the values this code can throw. -/
inductive JsErr where
  | jsError (message : String)
  deriving DecidableEq, Repr

/-- JavaScript string interpolation of an `Error` value: template literals
like `` `Error loading account: ${error}` `` stringify an `Error` as
`"Error: " ++ message`. -/
def jsToString : JsErr → String
  | .jsError m => "Error: " ++ m

/-- Message carried by a `JsErr`. -/
def JsErr.msg : JsErr → String
  | .jsError m => m

/-! ### Association-list model of the JavaScript `Map`

`Map` iteration and insertion order matter (`forEach` in
`unsubscribeAll`), so a `Map` is an insertion-ordered association list
with unique keys. -/

/-- `Map.get`: first value stored under `key`, if any. -/
def alookup {κ α : Type} [DecidableEq κ] : List (κ × α) → κ → Option α
  | [], _ => none
  | (k, v) :: rest, key => if k = key then some v else alookup rest key

/-- `Map.set`: replace the value in place when the key is present,
otherwise append the new entry. -/
def alset {κ α : Type} [DecidableEq κ] : List (κ × α) → κ → α → List (κ × α)
  | [], key, v => [(key, v)]
  | (k, w) :: rest, key, v =>
      if k = key then (key, v) :: rest else (k, w) :: alset rest key v

/-- `Map.delete`: remove the entry stored under `key` (the first match;
with unique keys this is the only one). -/
def alerase {κ α : Type} [DecidableEq κ] : List (κ × α) → κ → List (κ × α)
  | [], _ => []
  | (k, w) :: rest, key => if k = key then rest else (k, w) :: alerase rest key

/-- `Set.add`: append the element unless it is already present (a JS `Set`
holds no duplicates). -/
def setAdd {α : Type} [DecidableEq α] (l : List α) (a : α) : List α :=
  if a ∈ l then l else l ++ [a]

/-! ### Event data model (src/types/index.ts) -/

/-- The `EventType` enum. -/
inductive EventType where
  | ACCOUNT_UPDATED
  | PAYMENT_RECEIVED
  | PAYMENT_SENT
  | TRANSACTION_SUBMITTED
  | TRANSACTION_FAILED
  deriving DecidableEq, Repr

/-- A payment record delivered on a payments stream; the code reads only
its `to` field (`paymentData.to === publicKey`). -/
structure PaymentData where
  «to» : String
  amount : String
  deriving DecidableEq, Repr

/-- Stream message payloads carried inside an `EventData`. -/
inductive Payload where
  | payment (p : PaymentData)
  | account (raw : String)
  deriving DecidableEq, Repr

/-- The `EventData` structure `{type, payload}`. -/
structure EventData where
  type : EventType
  payload : Payload
  deriving DecidableEq, Repr

/-- Listener callbacks and cancellation capabilities are identified by
numbers; their runtime behaviour (return normally or throw) is supplied
by the environment `JsEnv`, since they are arbitrary JS functions. -/
structure JsEnv where
  /-- Behaviour of a registered listener callback on a given event:
  `none` means it returns normally, `some e` means it throws `e`. -/
  cbErr : Nat → EventData → Option JsErr
  /-- Behaviour of a stored cancellation capability when invoked:
  `none` means it returns normally, `some e` means it throws `e`. -/
  capErr : Nat → Option JsErr

/-- The mutable state of an `EventService` instance: the listener map
(`Map<string, Set<EventCallback>>`), the `closeCallbacks` map from
subscription id to the cancellation capability of its open stream, and a
counter producing fresh capability identities. -/
structure EvState where
  listeners : List (EventType × List Nat)
  closeCallbacks : List (String × Nat)
  nextCap : Nat
  deriving DecidableEq, Repr

/-- The freshly constructed `EventService` (empty maps). -/
def EvState.init : EvState :=
  { listeners := [], closeCallbacks := [], nextCap := 0 }

/-- Observable actions against the streaming transport: opening a stream
for a subscription key and invoking a cancellation capability. -/
inductive Act where
  | openStream (sid : String) (cap : Nat)
  | cancel (cap : Nat)
  deriving DecidableEq, Repr

/-- `EventService.addEventListener`: ensure a set exists for the event
type, then `Set.add` the callback. -/
def addEventListener (st : EvState) (t : EventType) (cb : Nat) : EvState :=
  let m :=
    if alookup st.listeners t = none then st.listeners ++ [(t, [])] else st.listeners
  { st with
    listeners := alset m t (setAdd ((alookup m t).getD []) cb) }

/-- `EventService.removeEventListener`: `Set.delete` the callback when a
set exists for the event type. -/
def removeEventListener (st : EvState) (t : EventType) (cb : Nat) : EvState :=
  match alookup st.listeners t with
  | none => st
  | some s => { st with listeners := alset st.listeners t (s.erase cb) }

/-- The listeners currently registered for an event type. -/
def listenersOf (st : EvState) (t : EventType) : List Nat :=
  (alookup st.listeners t).getD []

/-- The per-callback step of `emitEvent`'s `forEach`: run the callback
inside `try { callback(eventData) } catch (error) { console.error(...) }`;
either way the invocation is recorded, and a caught throw appends a log
entry instead of propagating. -/
def emitStep (env : JsEnv) (ed : EventData)
    (acc : List (Nat × EventData) × List String) (cb : Nat) :
    List (Nat × EventData) × List String :=
  match env.cbErr cb ed with
  | some e => (acc.1 ++ [(cb, ed)], acc.2 ++ ["Error in event listener: " ++ jsToString e])
  | none => (acc.1 ++ [(cb, ed)], acc.2)

/-- `EventService.emitEvent`: iterate over the listener set for the
event's type, invoking each callback on the event; a throwing callback is
caught and logged and iteration continues.  Returns the invocation list
(callback paired with the event it received) and the logged messages. -/
def emitEvent (env : JsEnv) (st : EvState) (ed : EventData) :
    List (Nat × EventData) × List String :=
  match alookup st.listeners ed.type with
  | none => ([], [])
  | some cbs => cbs.foldl (emitStep env ed) ([], [])

/-- `EventService.unsubscribe`: look up the stored cancellation
capability; absent means return `false` with no side effect; present
means invoke it (an uncaught throw propagates and leaves the map
untouched), delete the entry and return `true`. -/
def unsubscribe (env : JsEnv) (st : EvState) (sid : String) :
    Except JsErr Bool × EvState × List Act :=
  match alookup st.closeCallbacks sid with
  | none => (.ok false, st, [])
  | some c =>
      match env.capErr c with
      | some e => (.error e, st, [.cancel c])
      | none =>
          (.ok true, { st with closeCallbacks := alerase st.closeCallbacks sid }, [.cancel c])

/-- `EventService.subscribeToAccount`: compute the deterministic id
`"account-" + publicKey`, first `unsubscribe` it (a throw from the prior
capability propagates out of the call), then open a fresh account stream
and store its cancellation capability under the id. -/
def subscribeToAccount (env : JsEnv) (st : EvState) (publicKey : String) :
    Except JsErr String × EvState × List Act :=
  let sid := "account-" ++ publicKey
  match unsubscribe env st sid with
  | (.error e, st1, tr) => (.error e, st1, tr)
  | (.ok _, st1, tr) =>
      let c := st1.nextCap
      (.ok sid,
        { st1 with closeCallbacks := alset st1.closeCallbacks sid c, nextCap := c + 1 },
        tr ++ [.openStream sid c])

/-- `EventService.subscribeToPayments`: identical registry logic with the
deterministic id `"payments-" + publicKey` and a payments stream. -/
def subscribeToPayments (env : JsEnv) (st : EvState) (publicKey : String) :
    Except JsErr String × EvState × List Act :=
  let sid := "payments-" ++ publicKey
  match unsubscribe env st sid with
  | (.error e, st1, tr) => (.error e, st1, tr)
  | (.ok _, st1, tr) =>
      let c := st1.nextCap
      (.ok sid,
        { st1 with closeCallbacks := alset st1.closeCallbacks sid c, nextCap := c + 1 },
        tr ++ [.openStream sid c])

/-- The `onmessage` closure installed by `subscribeToPayments`: classify
the payment by comparing its `to` field with the subscribed account and
emit the resulting event to the listeners.  Returns the emitted event
together with the fan-out result. -/
def paymentsOnMessage (env : JsEnv) (publicKey : String) (st : EvState)
    (paymentData : PaymentData) :
    EventData × List (Nat × EventData) × List String :=
  let eventType :=
    if paymentData.«to» = publicKey then EventType.PAYMENT_RECEIVED else EventType.PAYMENT_SENT
  let ed : EventData := { type := eventType, payload := .payment paymentData }
  (ed, emitEvent env st ed)

/-- Body of `unsubscribeAll`'s `forEach` loop: invoke each stored
capability in insertion order; an uncaught throw aborts the iteration. -/
def cancelAll (env : JsEnv) : List (String × Nat) → Except JsErr Unit × List Act
  | [] => (.ok (), [])
  | (_, c) :: rest =>
      match env.capErr c with
      | some e => (.error e, [.cancel c])
      | none =>
          let (r, tr) := cancelAll env rest
          (r, .cancel c :: tr)

/-- `EventService.unsubscribeAll`: `forEach` over the stored capabilities
followed by `clear()`.  There is no `try`/`catch`: a throwing capability
escapes the call before `clear()` runs, leaving the map unchanged. -/
def unsubscribeAll (env : JsEnv) (st : EvState) :
    Except JsErr Unit × EvState × List Act :=
  match cancelAll env st.closeCallbacks with
  | (.ok _, tr) => (.ok (), { st with closeCallbacks := [] }, tr)
  | (.error e, tr) => (.error e, st, tr)

/-! ### Transaction pipeline (src/core/TransactionService.ts,
src/core/HorizonService.ts) -/

/-- An asset reference (`@stellar/stellar-sdk`'s `Asset` is opaque to the
embedded code, which only forwards it). -/
structure Asset where
  code : String
  issuer : Option String
  deriving DecidableEq, Repr

/-- `PaymentOptions` from src/types/index.ts. -/
structure PaymentOptions where
  destination : String
  amount : String
  asset : Asset
  memo : Option String
  deriving DecidableEq, Repr

/-- `TrustlineOptions` from src/types/index.ts. -/
structure TrustlineOptions where
  asset : Asset
  limit : Option String
  deriving DecidableEq, Repr

/-- A transaction operation as assembled by the pipeline. -/
inductive Operation where
  | payment (destination : String) (asset : Asset) (amount : String)
  | changeTrust (asset : Asset) (limit : Option String)
  | createAccount (destination : String) (startingBalance : String)
  deriving DecidableEq, Repr

/-- A cached balance entry (src/types/index.ts `BalanceData`). -/
structure BalanceData where
  assetType : String
  balance : String
  deriving DecidableEq, Repr

/-- The account snapshot returned by `server.loadAccount` (the fields the
embedded code consumes: id, current sequence number and balances). -/
structure Account where
  accountId : String
  sequence : Nat
  balances : List BalanceData
  deriving DecidableEq, Repr

/-- A built (possibly signed) transaction envelope.  `TransactionBuilder`
with base fee `'100'` and one operation yields envelope fee
`100 * operations.length`; `setTimeout(30)` fixes a 30-second timeout
window; `build()` consumes the source account's next sequence number. -/
structure Envelope where
  sourceId : String
  sequence : Nat
  fee : Nat
  operations : List Operation
  memo : Option String
  timeoutSeconds : Nat
  networkPassphrase : String
  signatures : List String
  deriving DecidableEq, Repr

/-- An error rejected by the underlying Horizon server on submission;
`resultCodes = some rc` models the presence of
`error.response.data.extras.result_codes` (already JSON-stringified). -/
structure ServerErr where
  message : String
  resultCodes : Option String
  deriving DecidableEq, Repr

/-- JavaScript stringification of the underlying server error. -/
def ServerErr.jsString (e : ServerErr) : String :=
  "Error: " ++ e.message

/-- The remote ledger service behind `HorizonService` (an external
collaborator): account lookup, transaction submission, and the network
passphrase held in the service's `NetworkConfig`. -/
structure Gateway where
  loadAccount : String → Except ServerErr Account
  submit : Envelope → Except ServerErr String
  passphrase : String

/-- Validation behaviour of the external `@stellar/stellar-sdk`
constructors the pipeline calls: each returns `none` when the constructor
succeeds and `some e` when it throws `e` (malformed amount / limit /
memo / secret key). -/
structure Sdk where
  paymentOpErr : String → Asset → String → Option JsErr
  changeTrustErr : Asset → Option String → Option JsErr
  memoTextErr : String → Option JsErr
  fromSecret : String → Except JsErr String

/-- Calls made against the ledger gateway, traced so that claims about
submission counts are expressible. -/
inductive GwCall where
  | load (publicKey : String)
  | submit (tx : Envelope)
  deriving DecidableEq, Repr

/-- Whether a traced gateway call is a transaction submission. -/
def GwCall.isSubmit : GwCall → Bool
  | .submit _ => true
  | .load _ => false

/-- `HorizonService.loadAccount`: forward to the server and wrap any
rejection as `` new Error(`Error loading account: ${error}`) ``. -/
def horizonLoadAccount (gw : Gateway) (publicKey : String) : Except JsErr Account :=
  match gw.loadAccount publicKey with
  | .ok a => .ok a
  | .error e => .error (.jsError ("Error loading account: " ++ e.jsString))

/-- `HorizonService.submitTransaction`: forward to the server; a
rejection carrying `extras.result_codes` becomes
`` new Error(`Transaction failed: ${codes}`) ``, any other rejection
`` new Error(`Error submitting transaction: ${error}`) ``. -/
def horizonSubmitTransaction (gw : Gateway) (tx : Envelope) : Except JsErr String :=
  match gw.submit tx with
  | .ok r => .ok r
  | .error e =>
      match e.resultCodes with
      | some rc => .error (.jsError ("Transaction failed: " ++ rc))
      | none => .error (.jsError ("Error submitting transaction: " ++ e.jsString))

/-- The JS truthiness test `if (options.memo)`: the memo is attached only
when present and non-empty. -/
def memoTruthy : Option String → Bool
  | none => false
  | some m => m ≠ ""

/-- `TransactionService.createPaymentTransaction`: load the source
account, build a `TransactionBuilder` with base fee `'100'` and the
network passphrase, add one payment operation, attach a text memo when
`options.memo` is truthy, `setTimeout(30)` and `build()`.  Every failure
inside the `try` is re-thrown as
`` new Error(`Error creating payment transaction: ${error}`) ``.
Returns the result together with the trace of gateway calls. -/
def createPaymentTransaction (gw : Gateway) (sdk : Sdk) (sourcePublicKey : String)
    (options : PaymentOptions) : Except JsErr Envelope × List GwCall :=
  match horizonLoadAccount gw sourcePublicKey with
  | .error e =>
      (.error (.jsError ("Error creating payment transaction: " ++ jsToString e)),
        [.load sourcePublicKey])
  | .ok sourceAccount =>
      match sdk.paymentOpErr options.destination options.asset options.amount with
      | some e =>
          (.error (.jsError ("Error creating payment transaction: " ++ jsToString e)),
            [.load sourcePublicKey])
      | none =>
          let withMemo : Except JsErr (Option String) :=
            match options.memo with
            | some m =>
                if m ≠ "" then
                  match sdk.memoTextErr m with
                  | some e => .error e
                  | none => .ok (some m)
                else .ok none
            | none => .ok none
          match withMemo with
          | .error e =>
              (.error (.jsError ("Error creating payment transaction: " ++ jsToString e)),
                [.load sourcePublicKey])
          | .ok memo =>
              (.ok
                { sourceId := sourcePublicKey
                  sequence := sourceAccount.sequence + 1
                  fee := 100 * 1
                  operations := [.payment options.destination options.asset options.amount]
                  memo := memo
                  timeoutSeconds := 30
                  networkPassphrase := gw.passphrase
                  signatures := [] },
                [.load sourcePublicKey])

/-- `TransactionService.createTrustlineTransaction`: same pipeline with a
single `changeTrust` operation and no memo support; failures wrapped as
`` new Error(`Error creating trustline transaction: ${error}`) ``. -/
def createTrustlineTransaction (gw : Gateway) (sdk : Sdk) (sourcePublicKey : String)
    (options : TrustlineOptions) : Except JsErr Envelope × List GwCall :=
  match horizonLoadAccount gw sourcePublicKey with
  | .error e =>
      (.error (.jsError ("Error creating trustline transaction: " ++ jsToString e)),
        [.load sourcePublicKey])
  | .ok sourceAccount =>
      match sdk.changeTrustErr options.asset options.limit with
      | some e =>
          (.error (.jsError ("Error creating trustline transaction: " ++ jsToString e)),
            [.load sourcePublicKey])
      | none =>
          (.ok
            { sourceId := sourcePublicKey
              sequence := sourceAccount.sequence + 1
              fee := 100 * 1
              operations := [.changeTrust options.asset options.limit]
              memo := none
              timeoutSeconds := 30
              networkPassphrase := gw.passphrase
              signatures := [] },
            [.load sourcePublicKey])

/-- `TransactionService.signTransaction`: `Keypair.fromSecret(secretKey)`
(which throws on a malformed secret) and `transaction.sign(keyPair)`,
appending one signature; failures wrapped as
`` new Error(`Error signing transaction: ${error}`) ``. -/
def signTransaction (sdk : Sdk) (transaction : Envelope) (secretKey : String) :
    Except JsErr Envelope :=
  match sdk.fromSecret secretKey with
  | .error e => .error (.jsError ("Error signing transaction: " ++ jsToString e))
  | .ok signerKey => .ok { transaction with signatures := transaction.signatures ++ [signerKey] }

/-- `TransactionService.submitTransaction`: forward to
`HorizonService.submitTransaction`, wrapping failures as
`` new Error(`Error submitting transaction: ${error}`) ``. -/
def tsSubmitTransaction (gw : Gateway) (transaction : Envelope) :
    Except JsErr String × List GwCall :=
  match horizonSubmitTransaction gw transaction with
  | .ok r => (.ok r, [.submit transaction])
  | .error e =>
      (.error (.jsError ("Error submitting transaction: " ++ jsToString e)), [.submit transaction])

/-- `TransactionService.sendPayment`: build, then sign, then submit, each
stage only after the previous succeeds; any stage's throw is wrapped as
`` new Error(`Error sending payment: ${error}`) `` and ends the call. -/
def sendPayment (gw : Gateway) (sdk : Sdk) (sourcePublicKey secretKey : String)
    (options : PaymentOptions) : Except JsErr String × List GwCall :=
  match createPaymentTransaction gw sdk sourcePublicKey options with
  | (.error e, calls) =>
      (.error (.jsError ("Error sending payment: " ++ jsToString e)), calls)
  | (.ok transaction, calls) =>
      match signTransaction sdk transaction secretKey with
      | .error e => (.error (.jsError ("Error sending payment: " ++ jsToString e)), calls)
      | .ok signedTransaction =>
          match tsSubmitTransaction gw signedTransaction with
          | (.ok r, calls2) => (.ok r, calls ++ calls2)
          | (.error e, calls2) =>
              (.error (.jsError ("Error sending payment: " ++ jsToString e)), calls ++ calls2)

/-- `TransactionService.addTrustline`: build, sign, submit for a
trustline, wrapping failures as
`` new Error(`Error adding trustline: ${error}`) ``. -/
def addTrustline (gw : Gateway) (sdk : Sdk) (sourcePublicKey secretKey : String)
    (options : TrustlineOptions) : Except JsErr String × List GwCall :=
  match createTrustlineTransaction gw sdk sourcePublicKey options with
  | (.error e, calls) =>
      (.error (.jsError ("Error adding trustline: " ++ jsToString e)), calls)
  | (.ok transaction, calls) =>
      match signTransaction sdk transaction secretKey with
      | .error e => (.error (.jsError ("Error adding trustline: " ++ jsToString e)), calls)
      | .ok signedTransaction =>
          match tsSubmitTransaction gw signedTransaction with
          | (.ok r, calls2) => (.ok r, calls ++ calls2)
          | (.error e, calls2) =>
              (.error (.jsError ("Error adding trustline: " ++ jsToString e)), calls ++ calls2)

/-! ### Wallet facade and the locally stored account directory
(src/core/StellarWallet.ts, src/core/KeyManager.ts — the KeyManager
source is concatenated into src/README.md after the document separator) -/

/-- A stored keypair (src/types/index.ts `KeyPairData`). -/
structure KeyPairData where
  publicKey : String
  secretKey : Option String
  deriving DecidableEq, Repr

/-- A stored account record (src/types/index.ts `AccountData`). -/
structure AccountData where
  id : String
  name : Option String
  keyPair : KeyPairData
  balances : Option (List BalanceData)
  deriving DecidableEq, Repr

/-- The account directory kept by `KeyManager`: a single Keychain entry
(`ACCOUNTS_KEY` under `SERVICE_NAME`) holding the JSON-serialised array
of stored accounts.  `getAccounts` parses that array (absent entry means
`[]`), so the state is the ordered list of stored records. -/
structure WalletState where
  store : List AccountData
  deriving DecidableEq, Repr

/-- The replace-or-push step of `KeyManager.storeAccount`: `findIndex`
locates the first entry whose id matches; when found the entry is
replaced in place (`accounts[existingIndex] = account`), otherwise the
account is pushed at the end. -/
def upsertAccount : List AccountData → AccountData → List AccountData
  | [], account => [account]
  | acc :: rest, account =>
      if acc.id = account.id then account :: rest else acc :: upsertAccount rest account

/-- `KeyManager.storeAccount`: read the stored array, replace-or-push the
record, and write the array back to the Keychain.  The Keychain backend
(an external collaborator) is modelled as reliable, so the call takes the
success path and returns `true`; a backend failure would be caught and
return `false`, a value no embedded caller inspects. -/
def storeAccount (ws : WalletState) (account : AccountData) : Bool × WalletState :=
  (true, { ws with store := upsertAccount ws.store account })

/-- `KeyManager.getAccount`: `find` over `getAccounts()` by id,
`account || null` when absent. -/
def getAccount (ws : WalletState) (id : String) : Option AccountData :=
  ws.store.find? (fun acc => acc.id == id)

/-- `StellarWallet.sendPayment`: delegates to
`TransactionService.sendPayment`; the wallet's account directory is not
consulted or written on this path. -/
def walletSendPayment (gw : Gateway) (sdk : Sdk) (ws : WalletState)
    (sourcePublicKey secretKey : String) (options : PaymentOptions) :
    Except JsErr String × WalletState × List GwCall :=
  let (r, calls) := sendPayment gw sdk sourcePublicKey secretKey options
  (r, ws, calls)

/-- `StellarWallet.loadAccountData`: read the stored account, load the
ledger snapshot, overwrite the stored balances and write the record back;
failures wrapped as `` new Error(`Error loading account data: ${error}`) ``.
This is the path that does write the account directory. -/
def walletLoadAccountData (gw : Gateway) (ws : WalletState) (publicKey : String) :
    Except JsErr AccountData × WalletState × List GwCall :=
  match getAccount ws publicKey with
  | none =>
      (.error (.jsError ("Error loading account data: Error: Account not found: " ++ publicKey)),
        ws, [])
  | some storedAccount =>
      match horizonLoadAccount gw publicKey with
      | .error e =>
          (.error (.jsError ("Error loading account data: " ++ jsToString e)), ws,
            [.load publicKey])
      | .ok accountRecord =>
          let updatedAccount :=
            { storedAccount with balances := some accountRecord.balances }
          (.ok updatedAccount, (storeAccount ws updatedAccount).2, [.load publicKey])

/-! ### Concrete fixtures for witnesses and counterexamples -/

/-- An environment where every callback and every cancellation capability
returns normally. -/
def envNice : JsEnv :=
  { cbErr := fun _ _ => none, capErr := fun _ => none }

/-- An environment where cancellation capability `0` throws and
everything else returns normally. -/
def envCap0Throws : JsEnv :=
  { cbErr := fun _ _ => none
    capErr := fun c => if c = 0 then some (.jsError "cancel failed") else none }

/-- An environment where listener callback `1` throws on every event and
everything else returns normally. -/
def envCb1Throws : JsEnv :=
  { cbErr := fun cb _ => if cb = 1 then some (.jsError "listener failed") else none
    capErr := fun _ => none }

/-- Registry state with one active account subscription stored under
capability `0`. -/
def stOneSub : EvState :=
  { listeners := [], closeCallbacks := [("account-A", 0)], nextCap := 1 }

/-- Registry state with two active subscriptions stored under
capabilities `0` and `1`. -/
def stTwoSubs : EvState :=
  { listeners := [], closeCallbacks := [("account-A", 0), ("payments-B", 1)], nextCap := 2 }

/-- The native asset fixture. -/
def assetNative : Asset := { code := "XLM", issuer := none }

/-- A gateway where every account loads (sequence 5) and every
submission succeeds. -/
def gwOk : Gateway :=
  { loadAccount := fun pk => .ok { accountId := pk, sequence := 5, balances := [] }
    submit := fun _ => .ok "txhash"
    passphrase := "Test SDF Network ; September 2015" }

/-- A gateway where no account can be loaded. -/
def gwNoAcct : Gateway :=
  { gwOk with loadAccount := fun _ => .error { message := "Not Found", resultCodes := none } }

/-- A gateway where every submission is rejected with structured result
codes. -/
def gwRej : Gateway :=
  { gwOk with
    submit := fun _ =>
      .error { message := "Request failed with status code 400", resultCodes := some "tx_bad_seq" } }

/-- An SDK whose constructors all accept their inputs. -/
def sdkOk : Sdk :=
  { paymentOpErr := fun _ _ _ => none
    changeTrustErr := fun _ _ => none
    memoTextErr := fun _ => none
    fromSecret := fun s => .ok ("signer-" ++ s) }

/-- An SDK whose payment-operation constructor throws; the message is an
arbitrary external string, here chosen to collide with the account-load
wrapping. -/
def sdkBadAmount : Sdk :=
  { sdkOk with paymentOpErr := fun _ _ _ => some (.jsError "Error loading account: Error: Not Found") }

/-- An SDK whose `Keypair.fromSecret` throws (malformed secret key). -/
def sdkBadSecret : Sdk :=
  { sdkOk with fromSecret := fun _ => .error (.jsError "invalid encoded string") }

/-- A payment intent with no memo. -/
def paymentOptsA : PaymentOptions :=
  { destination := "GB", amount := "10", asset := assetNative, memo := none }

/-- A payment intent supplying the empty-string memo. -/
def paymentOptsEmptyMemo : PaymentOptions :=
  { paymentOptsA with memo := some "" }

/-- A trustline intent. -/
def trustOptsA : TrustlineOptions := { asset := assetNative, limit := some "1000" }

/-- A payment intent with a malformed amount string. -/
def paymentOptsBadAmount : PaymentOptions :=
  { paymentOptsA with amount := "abc" }

/-- The envelope `createPaymentTransaction` builds from `gwOk`/`sdkOk`
for `paymentOptsA`. -/
def tx0 : Envelope :=
  { sourceId := "GA", sequence := 6, fee := 100,
    operations := [.payment "GB" assetNative "10"], memo := none,
    timeoutSeconds := 30, networkPassphrase := "Test SDF Network ; September 2015",
    signatures := [] }

/-- `tx0` signed with the secret "SA" under `sdkOk`. -/
def stx0 : Envelope := { tx0 with signatures := ["signer-SA"] }

/-- A wallet state with one stored account record. -/
def wsA : WalletState :=
  { store := [{ id := "GA", name := some "Primary",
                keyPair := { publicKey := "GA", secretKey := some "SA" },
                balances := none }] }

/-- State with listeners `1` and `2` registered for account updates. -/
def stTwoListeners : EvState :=
  { listeners := [(EventType.ACCOUNT_UPDATED, [1, 2])], closeCallbacks := [], nextCap := 0 }

/-- A concrete account-updated event. -/
def edA : EventData := { type := .ACCOUNT_UPDATED, payload := .account "snapshot" }


/-! ### Supporting lemmas -/

theorem alookup_alset_self {κ α : Type} [DecidableEq κ] (m : List (κ × α)) (k : κ) (v : α) :
    alookup (alset m k v) k = some v := by
  induction m with
  | nil => simp [alset, alookup]
  | cons p rest ih =>
      by_cases h : p.1 = k
      · simp [alset, alookup, h]
      · simp [alset, alookup, h, ih]

theorem alookup_none_of_not_mem_keys {κ α : Type} [DecidableEq κ]
    (m : List (κ × α)) (k : κ) (h : k ∉ m.map Prod.fst) : alookup m k = none := by
  induction m with
  | nil => rfl
  | cons p rest ih =>
      simp only [List.map_cons, List.mem_cons, not_or] at h
      have hne : p.1 ≠ k := fun hh => h.1 hh.symm
      simpa [alookup, hne] using ih h.2

theorem not_mem_keys_of_alookup_none {κ α : Type} [DecidableEq κ]
    (m : List (κ × α)) (k : κ) (h : alookup m k = none) : k ∉ m.map Prod.fst := by
  induction m with
  | nil => simp
  | cons p rest ih =>
      by_cases hk : p.1 = k
      · simp [alookup, hk] at h
      · simp only [alookup, hk, if_false] at h
        rw [List.map_cons]
        intro hmem
        rcases List.mem_cons.1 hmem with h1 | h1
        · exact hk h1.symm
        · exact ih h h1

/-- Number of entries a map holds under a key. -/
def countKey {α : Type} (m : List (String × α)) (k : String) : Nat :=
  (m.filter (fun p => p.1 = k)).length

theorem countKey_eq_zero_of_alookup_none {α : Type} (m : List (String × α)) (k : String)
    (h : alookup m k = none) : countKey m k = 0 := by
  induction m with
  | nil => rfl
  | cons p rest ih =>
      by_cases hk : p.1 = k
      · simp [alookup, hk] at h
      · simp only [alookup, hk, if_false] at h
        simpa [countKey, List.filter, hk] using ih h

theorem countKey_alset_of_none {α : Type} (m : List (String × α)) (k : String) (v : α)
    (h : alookup m k = none) : countKey (alset m k v) k = 1 := by
  induction m with
  | nil => simp [alset, countKey, List.filter]
  | cons p rest ih =>
      by_cases hk : p.1 = k
      · simp [alookup, hk] at h
      · simp only [alookup, hk, if_false] at h
        simpa [alset, countKey, List.filter, hk] using ih h

theorem alookup_alerase_self {κ α : Type} [DecidableEq κ] (m : List (κ × α)) (k : κ)
    (h : (m.map Prod.fst).Nodup) : alookup (alerase m k) k = none := by
  induction m with
  | nil => rfl
  | cons p rest ih =>
      obtain ⟨pk, pv⟩ := p
      rw [List.map_cons] at h
      obtain ⟨h1, h2⟩ := List.nodup_cons.1 h
      by_cases hk : pk = k
      · subst hk
        simpa [alerase] using alookup_none_of_not_mem_keys rest pk h1
      · simpa [alerase, alookup, hk] using ih h2

theorem keys_alerase_sublist {κ α : Type} [DecidableEq κ] (m : List (κ × α)) (k : κ) :
    ((alerase m k).map Prod.fst).Sublist (m.map Prod.fst) := by
  induction m with
  | nil => simp [alerase]
  | cons p rest ih =>
      by_cases hk : p.1 = k
      · simp only [alerase, hk, if_pos]
        exact List.sublist_cons_self p.1 (rest.map Prod.fst)
      · simpa [alerase, hk] using ih.cons₂ p.1

theorem keys_alerase_nodup {κ α : Type} [DecidableEq κ] (m : List (κ × α)) (k : κ)
    (h : (m.map Prod.fst).Nodup) : ((alerase m k).map Prod.fst).Nodup :=
  (keys_alerase_sublist m k).nodup h

theorem keys_alset_mem {κ α : Type} [DecidableEq κ] (m : List (κ × α)) (k : κ) (v : α)
    (q : κ × α) (hq : q ∈ alset m k v) : q ∈ m ∨ q.1 = k := by
  induction m with
  | nil =>
      simp only [alset, List.mem_singleton] at hq
      exact Or.inr (by simp [hq])
  | cons p rest ih =>
      by_cases hk : p.1 = k
      · simp only [alset, hk, if_true, List.mem_cons] at hq
        rcases hq with hq | hq
        · exact Or.inr (by simp [hq])
        · exact Or.inl (List.mem_cons_of_mem p hq)
      · simp only [alset, hk, if_false, List.mem_cons] at hq
        rcases hq with hq | hq
        · exact Or.inl (by simp [hq])
        · rcases ih hq with h | h
          · exact Or.inl (List.mem_cons_of_mem p h)
          · exact Or.inr h

theorem keys_alset_nodup {κ α : Type} [DecidableEq κ] (m : List (κ × α)) (k : κ) (v : α)
    (h : (m.map Prod.fst).Nodup) : ((alset m k v).map Prod.fst).Nodup := by
  induction m with
  | nil => simp [alset]
  | cons p rest ih =>
      obtain ⟨pk, pv⟩ := p
      rw [List.map_cons] at h
      obtain ⟨h1, h2⟩ := List.nodup_cons.1 h
      by_cases hk : pk = k
      · subst hk
        simpa [alset] using List.nodup_cons.2 ⟨h1, h2⟩
      · have hkeys := ih h2
        have hmem : pk ∉ (alset rest k v).map Prod.fst := by
          intro hcon
          rcases List.mem_map.1 hcon with ⟨q, hq, hq1⟩
          rcases keys_alset_mem rest k v q hq with hql | hqk
          · have hq2 : q.1 ∈ rest.map Prod.fst := List.mem_map_of_mem Prod.fst hql
            exact h1 (hq1 ▸ hq2)
          · exact hk (by rw [← hq1, hqk])
        have : ((pk, pv) :: alset rest k v).map Prod.fst
            = pk :: (alset rest k v).map Prod.fst := List.map_cons Prod.fst (pk, pv) (alset rest k v)
        simpa [alset, hk, this] using List.nodup_cons.2 ⟨hmem, hkeys⟩

theorem alset_alset {κ α : Type} [DecidableEq κ] (m : List (κ × α)) (k : κ) (v w : α) :
    alset (alset m k v) k w = alset m k w := by
  induction m with
  | nil => simp [alset]
  | cons p rest ih =>
      obtain ⟨pk, pv⟩ := p
      by_cases hk : pk = k
      · simp [alset, hk]
      · simp [alset, hk, ih]

theorem alookup_append_of_none {κ α : Type} [DecidableEq κ] (m1 m2 : List (κ × α)) (k : κ)
    (h : alookup m1 k = none) : alookup (m1 ++ m2) k = alookup m2 k := by
  induction m1 with
  | nil => rfl
  | cons p rest ih =>
      by_cases hk : p.1 = k
      · simp [alookup, hk] at h
      · simp only [alookup, hk, if_false] at h
        simpa [alookup, hk] using ih h

theorem setAdd_mem_self {α : Type} [DecidableEq α] (l : List α) (a : α) : a ∈ setAdd l a := by
  unfold setAdd
  by_cases h : a ∈ l
  · simp only [h, if_true]
  · simp [h]

theorem setAdd_idem {α : Type} [DecidableEq α] (l : List α) (a : α) :
    setAdd (setAdd l a) a = setAdd l a := by
  have h := setAdd_mem_self l a
  rw [setAdd, if_pos h]

theorem setAdd_nodup {α : Type} [DecidableEq α] (l : List α) (a : α) (h : l.Nodup) :
    (setAdd l a).Nodup := by
  by_cases hm : a ∈ l
  · simpa [setAdd, hm] using h
  · simp only [setAdd, hm, if_false]
    exact List.Nodup.append h (List.nodup_singleton a)
      (fun b hb hb2 => hm ((List.mem_singleton.1 hb2) ▸ hb))

theorem emit_foldl_fst (env : JsEnv) (ed : EventData) (cbs : List Nat) :
    ∀ acc, (cbs.foldl (emitStep env ed) acc).1 = acc.1 ++ cbs.map (fun cb => (cb, ed)) := by
  induction cbs with
  | nil => intro acc; simp
  | cons c rest ih =>
      intro acc
      rw [List.foldl_cons, ih]
      have hstep : (emitStep env ed acc c).1 = acc.1 ++ [(c, ed)] := by
        unfold emitStep
        cases env.cbErr c ed <;> rfl
      rw [hstep]
      simp

theorem emit_foldl_snd (env : JsEnv) (ed : EventData) (cbs : List Nat) :
    ∀ acc, (cbs.foldl (emitStep env ed) acc).2
      = acc.2 ++ cbs.filterMap
          (fun cb => (env.cbErr cb ed).map (fun e => "Error in event listener: " ++ jsToString e)) := by
  induction cbs with
  | nil => intro acc; simp
  | cons c rest ih =>
      intro acc
      rw [List.foldl_cons, ih]
      cases hc : env.cbErr c ed with
      | none => simp [emitStep, hc]
      | some e => simp [emitStep, hc]

theorem emit_invocations (env : JsEnv) (st : EvState) (ed : EventData) :
    (emitEvent env st ed).1 = (listenersOf st ed.type).map (fun cb => (cb, ed)) := by
  unfold emitEvent listenersOf
  cases h : alookup st.listeners ed.type with
  | none => simp
  | some cbs => simpa using emit_foldl_fst env ed cbs ([], [])

theorem emit_logs (env : JsEnv) (st : EvState) (ed : EventData) :
    (emitEvent env st ed).2
      = (listenersOf st ed.type).filterMap
          (fun cb => (env.cbErr cb ed).map (fun e => "Error in event listener: " ++ jsToString e)) := by
  unfold emitEvent listenersOf
  cases h : alookup st.listeners ed.type with
  | none => simp
  | some cbs => simpa using emit_foldl_snd env ed cbs ([], [])

theorem addEventListener_of_some (st : EvState) (t : EventType) (cb : Nat) (s : List Nat)
    (h : alookup st.listeners t = some s) :
    addEventListener st t cb = { st with listeners := alset st.listeners t (setAdd s cb) } := by
  simp [addEventListener, h]

theorem addEventListener_of_none (st : EvState) (t : EventType) (cb : Nat)
    (h : alookup st.listeners t = none) :
    addEventListener st t cb
      = { st with listeners := alset (st.listeners ++ [(t, [])]) t (setAdd [] cb) } := by
  have hm : alookup (st.listeners ++ [(t, [])]) t = some [] := by
    rw [alookup_append_of_none st.listeners [(t, [])] t h]
    simp [alookup]
  simp [addEventListener, h, hm]

theorem listenersOf_add_self (st : EvState) (t : EventType) (cb : Nat) :
    alookup (addEventListener st t cb).listeners t = some (setAdd (listenersOf st t) cb) := by
  cases h : alookup st.listeners t with
  | none =>
      rw [addEventListener_of_none st t cb h]
      unfold listenersOf
      rw [h]
      simpa using alookup_alset_self (st.listeners ++ [(t, [])]) t (setAdd [] cb)
  | some s =>
      rw [addEventListener_of_some st t cb s h]
      unfold listenersOf
      rw [h]
      simpa using alookup_alset_self st.listeners t (setAdd s cb)

theorem add_listener_idem (st : EvState) (t : EventType) (cb : Nat) :
    addEventListener (addEventListener st t cb) t cb = addEventListener st t cb := by
  have h1 := listenersOf_add_self st t cb
  rw [addEventListener_of_some (addEventListener st t cb) t cb _ h1, setAdd_idem]
  cases h : alookup st.listeners t with
  | none =>
      rw [addEventListener_of_none st t cb h]
      unfold listenersOf
      rw [h]
      simp [alset_alset]
  | some s =>
      rw [addEventListener_of_some st t cb s h]
      unfold listenersOf
      rw [h]
      simp [alset_alset]

theorem listenersOf_add (st : EvState) (t : EventType) (cb : Nat) :
    listenersOf (addEventListener st t cb) t = setAdd (listenersOf st t) cb := by
  unfold listenersOf
  rw [listenersOf_add_self]
  rfl

theorem listenersOf_remove (st : EvState) (t : EventType) (cb : Nat) :
    listenersOf (removeEventListener st t cb) t = (listenersOf st t).erase cb := by
  unfold removeEventListener listenersOf
  cases h : alookup st.listeners t with
  | none => simp [h]
  | some s =>
      simp only [h]
      rw [alookup_alset_self st.listeners t (s.erase cb)]
      rfl

theorem cancelAll_ok (env : JsEnv) (m : List (String × Nat))
    (h : ∀ p ∈ m, env.capErr p.2 = none) :
    cancelAll env m = (.ok (), m.map (fun p => .cancel p.2)) := by
  induction m with
  | nil => rfl
  | cons p rest ih =>
      obtain ⟨sid, c⟩ := p
      have hc : env.capErr c = none := h (sid, c) (List.mem_cons_self (sid, c) rest)
      have hrest := ih (fun q hq => h q (List.mem_cons_of_mem (sid, c) hq))
      simp [cancelAll, hc, hrest]

theorem createPayment_calls (gw : Gateway) (sdk : Sdk) (pk : String) (opts : PaymentOptions) :
    (createPaymentTransaction gw sdk pk opts).2 = [.load pk] := by
  unfold createPaymentTransaction
  repeat' split
  all_goals rfl

theorem createTrustline_calls (gw : Gateway) (sdk : Sdk) (pk : String)
    (opts : TrustlineOptions) :
    (createTrustlineTransaction gw sdk pk opts).2 = [.load pk] := by
  unfold createTrustlineTransaction
  repeat' split
  all_goals rfl

theorem subscribeToAccount_of_none (env : JsEnv) (st : EvState) (pk : String)
    (h : alookup st.closeCallbacks ("account-" ++ pk) = none) :
    subscribeToAccount env st pk
      = (.ok ("account-" ++ pk),
         { st with
           closeCallbacks := alset st.closeCallbacks ("account-" ++ pk) st.nextCap,
           nextCap := st.nextCap + 1 },
         [.openStream ("account-" ++ pk) st.nextCap]) := by
  simp [subscribeToAccount, unsubscribe, h]

theorem subscribeToAccount_of_some (env : JsEnv) (st : EvState) (pk : String) (c : Nat)
    (h : alookup st.closeCallbacks ("account-" ++ pk) = some c)
    (hcap : env.capErr c = none) :
    subscribeToAccount env st pk
      = (.ok ("account-" ++ pk),
         { st with
           closeCallbacks :=
             alset (alerase st.closeCallbacks ("account-" ++ pk)) ("account-" ++ pk) st.nextCap,
           nextCap := st.nextCap + 1 },
         [.cancel c, .openStream ("account-" ++ pk) st.nextCap]) := by
  simp [subscribeToAccount, unsubscribe, h, hcap]

theorem subscribeToPayments_of_none (env : JsEnv) (st : EvState) (pk : String)
    (h : alookup st.closeCallbacks ("payments-" ++ pk) = none) :
    subscribeToPayments env st pk
      = (.ok ("payments-" ++ pk),
         { st with
           closeCallbacks := alset st.closeCallbacks ("payments-" ++ pk) st.nextCap,
           nextCap := st.nextCap + 1 },
         [.openStream ("payments-" ++ pk) st.nextCap]) := by
  simp [subscribeToPayments, unsubscribe, h]

theorem subscribeToPayments_of_some (env : JsEnv) (st : EvState) (pk : String) (c : Nat)
    (h : alookup st.closeCallbacks ("payments-" ++ pk) = some c)
    (hcap : env.capErr c = none) :
    subscribeToPayments env st pk
      = (.ok ("payments-" ++ pk),
         { st with
           closeCallbacks :=
             alset (alerase st.closeCallbacks ("payments-" ++ pk)) ("payments-" ++ pk) st.nextCap,
           nextCap := st.nextCap + 1 },
         [.cancel c, .openStream ("payments-" ++ pk) st.nextCap]) := by
  simp [subscribeToPayments, unsubscribe, h, hcap]

/-! ### Claim theorems -/

/-- C4: for every incoming payment payload delivered on a payments
subscription for `accountId`, the emitted event has type
`PAYMENT_RECEIVED` exactly when the payload's `to` field equals
`accountId`, and type `PAYMENT_SENT` for every other value of `to`; the
event carries the payload unchanged. -/
theorem payment_event_classification (env : JsEnv) (accountId : String) (st : EvState)
    (p : PaymentData) :
    ((paymentsOnMessage env accountId st p).1.type = EventType.PAYMENT_RECEIVED
        ↔ p.«to» = accountId)
    ∧ ((paymentsOnMessage env accountId st p).1.type = EventType.PAYMENT_SENT
        ↔ p.«to» ≠ accountId)
    ∧ (paymentsOnMessage env accountId st p).1.payload = .payment p := by
  unfold paymentsOnMessage
  by_cases h : p.«to» = accountId <;> simp [h]

/-- C7: on fan-out, every listener registered for the event's class is
invoked with the same event even when other listeners' callbacks throw;
each throwing callback's error is caught and logged instead of
propagating to the emitting stream. -/
theorem listener_isolation (env : JsEnv) (st : EvState) (ed : EventData) :
    (emitEvent env st ed).1 = (listenersOf st ed.type).map (fun cb => (cb, ed))
    ∧ (∀ cb, cb ∈ listenersOf st ed.type → ∀ e, env.cbErr cb ed = some e →
        ("Error in event listener: " ++ jsToString e) ∈ (emitEvent env st ed).2) := by
  refine ⟨emit_invocations env st ed, ?_⟩
  intro cb hcb e he
  rw [emit_logs]
  exact List.mem_filterMap.2 ⟨cb, hcb, by rw [he]; rfl⟩

/-- Witness for C7: with listeners 1 and 2 registered for account
updates and listener 1 configured to throw, both are invoked with the
same event and the thrown error is logged. -/
theorem listener_isolation_witness :
    (emitEvent envCb1Throws stTwoListeners edA).1 = [(1, edA), (2, edA)]
    ∧ ("Error in event listener: Error: listener failed")
        ∈ (emitEvent envCb1Throws stTwoListeners edA).2 :=
  ⟨by rw [(listener_isolation envCb1Throws stTwoListeners edA).1]; rfl,
   (listener_isolation envCb1Throws stTwoListeners edA).2 1 (by decide)
     (.jsError "listener failed") rfl⟩

/-- C10: registering the same callback twice for the same event class is
idempotent (the whole service state is unchanged by the second call);
given the stored listener set is duplicate-free, an emitted event invokes
that callback at most once and a single `removeEventListener` removes it
entirely. -/
theorem listener_registration_idempotent (st : EvState) (t : EventType) (cb : Nat)
    (hnd : (listenersOf st t).Nodup) :
    addEventListener (addEventListener st t cb) t cb = addEventListener st t cb
    ∧ (∀ env ed, ed.type = t →
        (emitEvent env (addEventListener (addEventListener st t cb) t cb) ed).1.countP
          (fun q => q.1 == cb) ≤ 1)
    ∧ cb ∉ listenersOf
        (removeEventListener (addEventListener (addEventListener st t cb) t cb) t cb) t := by
  have hidem := add_listener_idem st t cb
  have hset : (setAdd (listenersOf st t) cb).Nodup := setAdd_nodup (listenersOf st t) cb hnd
  refine ⟨hidem, ?_, ?_⟩
  · intro env ed hed
    rw [hidem, emit_invocations, List.countP_map]
    have hcount : (listenersOf (addEventListener st t cb) ed.type).countP
        ((fun q : Nat × EventData => q.1 == cb) ∘ (fun c => (c, ed)))
        = (listenersOf (addEventListener st t cb) ed.type).count cb := by
      rw [List.count_eq_countP]
      rfl
    rw [hcount, hed, listenersOf_add]
    exact List.nodup_iff_count_le_one.1 hset cb
  · rw [hidem, listenersOf_remove, listenersOf_add]
    exact hset.not_mem_erase

/-- Witness for C10: double registration of callback 7 from the fresh
service equals single registration, and one removal removes it. -/
theorem listener_registration_idempotent_witness :
    addEventListener (addEventListener EvState.init .ACCOUNT_UPDATED 7) .ACCOUNT_UPDATED 7
      = addEventListener EvState.init .ACCOUNT_UPDATED 7
    ∧ 7 ∉ listenersOf
        (removeEventListener
          (addEventListener (addEventListener EvState.init .ACCOUNT_UPDATED 7)
            .ACCOUNT_UPDATED 7) .ACCOUNT_UPDATED 7) .ACCOUNT_UPDATED :=
  ⟨(listener_registration_idempotent EvState.init .ACCOUNT_UPDATED 7 (by decide)).1,
   (listener_registration_idempotent EvState.init .ACCOUNT_UPDATED 7 (by decide)).2.2⟩

/-- C1 (amended): provided every stored cancellation capability returns
normally when invoked, `subscribeToAccount` returns the deterministic id
`"account-" + accountId` (and `subscribeToPayments` `"payments-" +
accountId`) from every registry state — so repeated calls yield the same
id — the registry afterwards holds exactly one entry (one underlying
stream) for the key, and re-entering while active first cancels the
stored prior capability and only then opens the new stream; a throwing
prior capability instead propagates out of the call. -/
theorem subscription_identity (env : JsEnv) (st : EvState) (pk : String)
    (hcaps : ∀ c, env.capErr c = none)
    (hkeys : (st.closeCallbacks.map Prod.fst).Nodup) :
    (subscribeToAccount env st pk).1 = .ok ("account-" ++ pk)
    ∧ (subscribeToPayments env st pk).1 = .ok ("payments-" ++ pk)
    ∧ countKey (subscribeToAccount env st pk).2.1.closeCallbacks ("account-" ++ pk) = 1
    ∧ ((subscribeToAccount env st pk).2.1.closeCallbacks.map Prod.fst).Nodup
    ∧ (∀ c, alookup st.closeCallbacks ("account-" ++ pk) = some c →
        (subscribeToAccount env st pk).2.2
          = [.cancel c, .openStream ("account-" ++ pk) st.nextCap])
    ∧ (alookup st.closeCallbacks ("account-" ++ pk) = none →
        (subscribeToAccount env st pk).2.2 = [.openStream ("account-" ++ pk) st.nextCap]) := by
  have hA : (subscribeToAccount env st pk).1 = .ok ("account-" ++ pk) := by
    cases h : alookup st.closeCallbacks ("account-" ++ pk) with
    | none => rw [subscribeToAccount_of_none env st pk h]
    | some c => rw [subscribeToAccount_of_some env st pk c h (hcaps c)]
  have hP : (subscribeToPayments env st pk).1 = .ok ("payments-" ++ pk) := by
    cases h : alookup st.closeCallbacks ("payments-" ++ pk) with
    | none => rw [subscribeToPayments_of_none env st pk h]
    | some c => rw [subscribeToPayments_of_some env st pk c h (hcaps c)]
  have hCount :
      countKey (subscribeToAccount env st pk).2.1.closeCallbacks ("account-" ++ pk) = 1 := by
    cases h : alookup st.closeCallbacks ("account-" ++ pk) with
    | none =>
        rw [subscribeToAccount_of_none env st pk h]
        exact countKey_alset_of_none st.closeCallbacks ("account-" ++ pk) st.nextCap h
    | some c =>
        rw [subscribeToAccount_of_some env st pk c h (hcaps c)]
        exact countKey_alset_of_none (alerase st.closeCallbacks ("account-" ++ pk))
          ("account-" ++ pk) st.nextCap
          (alookup_alerase_self st.closeCallbacks ("account-" ++ pk) hkeys)
  have hNd : ((subscribeToAccount env st pk).2.1.closeCallbacks.map Prod.fst).Nodup := by
    cases h : alookup st.closeCallbacks ("account-" ++ pk) with
    | none =>
        rw [subscribeToAccount_of_none env st pk h]
        exact keys_alset_nodup st.closeCallbacks ("account-" ++ pk) st.nextCap hkeys
    | some c =>
        rw [subscribeToAccount_of_some env st pk c h (hcaps c)]
        exact keys_alset_nodup (alerase st.closeCallbacks ("account-" ++ pk))
          ("account-" ++ pk) st.nextCap
          (keys_alerase_nodup st.closeCallbacks ("account-" ++ pk) hkeys)
  refine ⟨hA, hP, hCount, hNd, ?_, ?_⟩
  · intro c hc
    rw [subscribeToAccount_of_some env st pk c hc (hcaps c)]
  · intro hc
    rw [subscribeToAccount_of_none env st pk hc]

/-- Counterexample for C1: when the stored prior capability throws, the
first call returns the deterministic id but the repeated call with the
same accountId throws instead of yielding the same subscriptionId, and no
new stream is opened. -/
theorem subscription_identity_cex :
    (subscribeToAccount envCap0Throws EvState.init "A").1 = .ok "account-A"
    ∧ (subscribeToAccount envCap0Throws
        (subscribeToAccount envCap0Throws EvState.init "A").2.1 "A").1
        = .error (.jsError "cancel failed")
    ∧ (subscribeToAccount envCap0Throws
        (subscribeToAccount envCap0Throws EvState.init "A").2.1 "A").2.2 = [.cancel 0] :=
  ⟨rfl, rfl, rfl⟩

/-- Witness for C1: from the fresh registry with well-behaved
capabilities, subscribing account "A" yields "account-A" with a single
opened stream and one registry entry. -/
theorem subscription_identity_witness :
    (subscribeToAccount envNice EvState.init "A").1 = .ok "account-A"
    ∧ (subscribeToPayments envNice EvState.init "A").1 = .ok "payments-A"
    ∧ (subscribeToAccount envNice EvState.init "A").2.2 = [.openStream "account-A" 0]
    ∧ countKey (subscribeToAccount envNice EvState.init "A").2.1.closeCallbacks "account-A"
        = 1 :=
  ⟨(subscription_identity envNice EvState.init "A" (fun _ => rfl) (by decide)).1,
   (subscription_identity envNice EvState.init "A" (fun _ => rfl) (by decide)).2.1,
   (subscription_identity envNice EvState.init "A" (fun _ => rfl) (by decide)).2.2.2.2.2
     (by decide),
   (subscription_identity envNice EvState.init "A" (fun _ => rfl) (by decide)).2.2.1⟩

/-- C2 (amended): `unsubscribeAll` invokes every stored cancellation
capability in insertion order and clears the map, provided each
capability returns normally; a throwing capability instead escapes the
call, later capabilities are not invoked, and the map is left unchanged
(there is no `try`/`catch` around the `forEach`). -/
theorem unsubscribe_all_teardown (env : JsEnv) (st : EvState)
    (h : ∀ p ∈ st.closeCallbacks, env.capErr p.2 = none) :
    unsubscribeAll env st
      = (.ok (), { st with closeCallbacks := [] },
         st.closeCallbacks.map (fun p => .cancel p.2)) := by
  unfold unsubscribeAll
  rw [cancelAll_ok env st.closeCallbacks h]

/-- Counterexample for C2: with two active subscriptions whose first
stored capability throws, `unsubscribeAll` lets the exception escape, the
second capability is never invoked, and both map entries remain. -/
theorem unsubscribe_all_teardown_cex :
    unsubscribeAll envCap0Throws stTwoSubs
      = (.error (.jsError "cancel failed"), stTwoSubs, [.cancel 0])
    ∧ stTwoSubs.closeCallbacks.length = 2 :=
  ⟨rfl, rfl⟩

/-- Witness for C2 (amended): with two active subscriptions and
well-behaved capabilities, teardown cancels both in order and empties the
map. -/
theorem unsubscribe_all_teardown_witness :
    unsubscribeAll envNice stTwoSubs
      = (.ok (), { stTwoSubs with closeCallbacks := [] }, [.cancel 0, .cancel 1]) :=
  unsubscribe_all_teardown envNice stTwoSubs (fun _ _ => rfl)

/-- C6 (amended): `unsubscribe` on an id with no active subscription
returns `false` and leaves the state unchanged; on an active id it
invokes the stored capability exactly once and, provided the capability
returns normally, removes the entry (so the id is no longer in the
registry) and returns `true`; a throwing capability instead propagates
and the entry remains. -/
theorem unsubscribe_contract (env : JsEnv) (st : EvState) (sid : String) :
    (alookup st.closeCallbacks sid = none → unsubscribe env st sid = (.ok false, st, []))
    ∧ (∀ c, alookup st.closeCallbacks sid = some c → env.capErr c = none →
        unsubscribe env st sid
          = (.ok true, { st with closeCallbacks := alerase st.closeCallbacks sid },
             [.cancel c])
        ∧ ((st.closeCallbacks.map Prod.fst).Nodup →
            alookup (alerase st.closeCallbacks sid) sid = none)) := by
  constructor
  · intro h
    simp [unsubscribe, h]
  · intro c hc hcap
    refine ⟨by simp [unsubscribe, hc, hcap], fun hnd => ?_⟩
    exact alookup_alerase_self st.closeCallbacks sid hnd

/-- Counterexample for C6: on an id with an active subscription whose
capability throws, `unsubscribe` invokes the capability once but does not
remove the entry and does not return `true` — the exception escapes. -/
theorem unsubscribe_contract_cex :
    alookup stOneSub.closeCallbacks "account-A" = some 0
    ∧ unsubscribe envCap0Throws stOneSub "account-A"
        = (.error (.jsError "cancel failed"), stOneSub, [.cancel 0]) :=
  ⟨rfl, rfl⟩

/-- Witness for C6: an unknown id returns `false` with no side effect; a
known id (capability 0, well-behaved) is cancelled once and removed. -/
theorem unsubscribe_contract_witness :
    unsubscribe envNice stTwoSubs "zzz" = (.ok false, stTwoSubs, [])
    ∧ unsubscribe envNice stTwoSubs "account-A"
        = (.ok true,
           { stTwoSubs with closeCallbacks := alerase stTwoSubs.closeCallbacks "account-A" },
           [.cancel 0]) :=
  ⟨(unsubscribe_contract envNice stTwoSubs "zzz").1 (by decide),
   ((unsubscribe_contract envNice stTwoSubs "account-A").2 0 (by decide) rfl).1⟩

/-- C3: the composed execute operations (`sendPayment` / `addTrustline`)
strictly sequence build → sign → submit: whenever build (account load or
envelope construction) or sign throws, the overall call rejects with the
wrapped stage error and the gateway trace is `[load]` only — no
submission call is ever made, and that trace contains no submit. -/
theorem execute_strict_sequencing (gw : Gateway) (sdk : Sdk) (pk secret : String)
    (popts : PaymentOptions) (topts : TrustlineOptions) :
    (∀ e, (createPaymentTransaction gw sdk pk popts).1 = .error e →
        sendPayment gw sdk pk secret popts
          = (.error (.jsError ("Error sending payment: " ++ jsToString e)), [.load pk]))
    ∧ (∀ tx e, (createPaymentTransaction gw sdk pk popts).1 = .ok tx →
        signTransaction sdk tx secret = .error e →
        sendPayment gw sdk pk secret popts
          = (.error (.jsError ("Error sending payment: " ++ jsToString e)), [.load pk]))
    ∧ (∀ e, (createTrustlineTransaction gw sdk pk topts).1 = .error e →
        addTrustline gw sdk pk secret topts
          = (.error (.jsError ("Error adding trustline: " ++ jsToString e)), [.load pk]))
    ∧ (∀ tx e, (createTrustlineTransaction gw sdk pk topts).1 = .ok tx →
        signTransaction sdk tx secret = .error e →
        addTrustline gw sdk pk secret topts
          = (.error (.jsError ("Error adding trustline: " ++ jsToString e)), [.load pk]))
    ∧ [GwCall.load pk].countP GwCall.isSubmit = 0 := by
  refine ⟨?_, ?_, ?_, ?_, by simp [GwCall.isSubmit]⟩
  · intro e he
    have hc := createPayment_calls gw sdk pk popts
    unfold sendPayment
    cases hp : createPaymentTransaction gw sdk pk popts with
    | mk r calls =>
        rw [hp] at he hc
        simp only at he hc
        subst he
        subst hc
        rfl
  · intro tx e htx hsig
    have hc := createPayment_calls gw sdk pk popts
    unfold sendPayment
    cases hp : createPaymentTransaction gw sdk pk popts with
    | mk r calls =>
        rw [hp] at htx hc
        simp only at htx hc
        subst htx
        subst hc
        simp [hsig]
  · intro e he
    have hc := createTrustline_calls gw sdk pk topts
    unfold addTrustline
    cases hp : createTrustlineTransaction gw sdk pk topts with
    | mk r calls =>
        rw [hp] at he hc
        simp only at he hc
        subst he
        subst hc
        rfl
  · intro tx e htx hsig
    have hc := createTrustline_calls gw sdk pk topts
    unfold addTrustline
    cases hp : createTrustlineTransaction gw sdk pk topts with
    | mk r calls =>
        rw [hp] at htx hc
        simp only at htx hc
        subst htx
        subst hc
        simp [hsig]

/-- Witness for C3: with a gateway whose account load fails, and with an
SDK whose secret-key parsing fails, `sendPayment` rejects with the
wrapped stage error and the gateway trace holds no submission. -/
theorem execute_strict_sequencing_witness :
    sendPayment gwNoAcct sdkOk "GA" "SA" paymentOptsA
      = (.error (.jsError
          "Error sending payment: Error: Error creating payment transaction: Error: Error loading account: Error: Not Found"),
         [.load "GA"])
    ∧ sendPayment gwOk sdkBadSecret "GA" "BAD" paymentOptsA
      = (.error (.jsError
          "Error sending payment: Error: Error signing transaction: Error: invalid encoded string"),
         [.load "GA"]) :=
  ⟨(execute_strict_sequencing gwNoAcct sdkOk "GA" "SA" paymentOptsA trustOptsA).1
     (.jsError "Error creating payment transaction: Error: Error loading account: Error: Not Found")
     rfl,
   (execute_strict_sequencing gwOk sdkBadSecret "GA" "BAD" paymentOptsA trustOptsA).2.1
     tx0 (.jsError "Error signing transaction: Error: invalid encoded string") rfl rfl⟩

/-- C5 (amended): for every source account that loads successfully and
every intent the SDK's constructors accept, build produces an envelope
with exactly one operation of the requested kind (payment or
changeTrust), fee 100, a 30-second timeout window, the next sequence
number, and a text memo attached if and only if the intent supplies a
non-empty memo (the JS truthiness test `if (options.memo)` skips the
empty string). -/
theorem build_envelope_shape (gw : Gateway) (sdk : Sdk) (pk : String)
    (popts : PaymentOptions) (topts : TrustlineOptions) (acct : Account)
    (hload : gw.loadAccount pk = .ok acct)
    (hop : sdk.paymentOpErr popts.destination popts.asset popts.amount = none)
    (hmemo : ∀ m, popts.memo = some m → sdk.memoTextErr m = none)
    (htl : sdk.changeTrustErr topts.asset topts.limit = none) :
    (createPaymentTransaction gw sdk pk popts).1
      = .ok { sourceId := pk, sequence := acct.sequence + 1, fee := 100,
              operations := [.payment popts.destination popts.asset popts.amount],
              memo := if memoTruthy popts.memo then popts.memo else none,
              timeoutSeconds := 30, networkPassphrase := gw.passphrase,
              signatures := [] }
    ∧ (createTrustlineTransaction gw sdk pk topts).1
      = .ok { sourceId := pk, sequence := acct.sequence + 1, fee := 100,
              operations := [.changeTrust topts.asset topts.limit],
              memo := none, timeoutSeconds := 30,
              networkPassphrase := gw.passphrase, signatures := [] } := by
  constructor
  · unfold createPaymentTransaction horizonLoadAccount
    rw [hload]
    simp only [hop]
    cases hm : popts.memo with
    | none => simp [memoTruthy, hm]
    | some m =>
        by_cases hne : m = ""
        · subst hne
          simp [memoTruthy, hm]
        · simp [memoTruthy, hm, hne, hmemo m hm]
  · unfold createTrustlineTransaction horizonLoadAccount
    rw [hload]
    simp [htl]

/-- Counterexample for C5: the intent supplies a memo — the empty string
— the build succeeds, but no memo is attached, refuting "a text memo
attached if and only if the intent supplies one". -/
theorem build_envelope_shape_cex :
    paymentOptsEmptyMemo.memo = some ""
    ∧ (createPaymentTransaction gwOk sdkOk "GA" paymentOptsEmptyMemo).1
        = .ok { sourceId := "GA", sequence := 6, fee := 100,
                operations := [.payment "GB" assetNative "10"],
                memo := none, timeoutSeconds := 30,
                networkPassphrase := "Test SDF Network ; September 2015",
                signatures := [] } :=
  ⟨rfl, rfl⟩

/-- Witness for C5 (amended): the concrete build of a 10-XLM payment
from the sequence-5 account yields one payment operation, fee 100,
timeout 30 and no memo; with a non-empty memo supplied it is attached. -/
theorem build_envelope_shape_witness :
    (createPaymentTransaction gwOk sdkOk "GA" paymentOptsA).1
      = .ok { sourceId := "GA", sequence := 6, fee := 100,
              operations := [.payment "GB" assetNative "10"],
              memo := none, timeoutSeconds := 30,
              networkPassphrase := "Test SDF Network ; September 2015",
              signatures := [] } :=
  (build_envelope_shape gwOk sdkOk "GA" paymentOptsA trustOptsA
    { accountId := "GA", sequence := 5, balances := [] } rfl rfl (fun _ _ => rfl) rfl).1

/-- C8: the wallet `sendPayment` path never writes the locally stored
account directory, whatever the outcome; and when the gateway rejects the
submission with structured result codes, the call rejects with the error
chain carrying those codes. -/
theorem sendPayment_preserves_store (gw : Gateway) (sdk : Sdk) (ws : WalletState)
    (pk secret : String) (opts : PaymentOptions) :
    (walletSendPayment gw sdk ws pk secret opts).2.1 = ws
    ∧ (∀ tx stx m rc,
        (createPaymentTransaction gw sdk pk opts).1 = .ok tx →
        signTransaction sdk tx secret = .ok stx →
        gw.submit stx = .error { message := m, resultCodes := some rc } →
        (walletSendPayment gw sdk ws pk secret opts).1
          = .error (.jsError ("Error sending payment: "
              ++ jsToString (.jsError ("Error submitting transaction: "
                ++ jsToString (.jsError ("Transaction failed: " ++ rc))))))) := by
  constructor
  · unfold walletSendPayment
    cases sendPayment gw sdk pk secret opts with
    | mk r calls => rfl
  · intro tx stx m rc htx hsig hsub
    have hsend : (sendPayment gw sdk pk secret opts).1
        = .error (.jsError ("Error sending payment: "
            ++ jsToString (.jsError ("Error submitting transaction: "
              ++ jsToString (.jsError ("Transaction failed: " ++ rc)))))) := by
      unfold sendPayment
      cases hp : createPaymentTransaction gw sdk pk opts with
      | mk r calls =>
          rw [hp] at htx
          simp only at htx
          subst htx
          simp only [hsig]
          unfold tsSubmitTransaction horizonSubmitTransaction
          rw [hsub]
    unfold walletSendPayment
    cases hp2 : sendPayment gw sdk pk secret opts with
    | mk r calls =>
        rw [hp2] at hsend
        simpa using hsend

/-- Witness for C8: against a gateway rejecting with result codes
`tx_bad_seq`, the stored account directory is untouched and the call
rejects with the code embedded in the error chain. -/
theorem sendPayment_preserves_store_witness :
    (walletSendPayment gwRej sdkOk wsA "GA" "SA" paymentOptsA).2.1 = wsA
    ∧ (walletSendPayment gwRej sdkOk wsA "GA" "SA" paymentOptsA).1
        = .error (.jsError
            "Error sending payment: Error: Error submitting transaction: Error: Transaction failed: tx_bad_seq") :=
  ⟨(sendPayment_preserves_store gwRej sdkOk wsA "GA" "SA" paymentOptsA).1,
   (sendPayment_preserves_store gwRej sdkOk wsA "GA" "SA" paymentOptsA).2
     tx0 stx0 "Request failed with status code 400" "tx_bad_seq" rfl rfl rfl⟩

/-- C9 (amended): every build failure surfaces as the one generic `Error`
class with a wrapped message: an account that cannot be loaded — for any
underlying gateway error, missing account and transport failure alike —
yields the fixed wrap "Error creating payment transaction: Error: Error
loading account: ...", and a malformed intent yields "Error creating
payment/trustline transaction: " around the SDK's own message; there are
no distinguished AccountNotFound / InvalidIntent error values, so the
failure classes are separable only by message text. -/
theorem build_failure_wrapping (gw : Gateway) (sdk : Sdk) (pk : String)
    (popts : PaymentOptions) (topts : TrustlineOptions) :
    (∀ e, gw.loadAccount pk = .error e →
        (createPaymentTransaction gw sdk pk popts).1
          = .error (.jsError ("Error creating payment transaction: "
              ++ jsToString (.jsError ("Error loading account: " ++ e.jsString)))))
    ∧ (∀ acct e2, gw.loadAccount pk = .ok acct →
        sdk.paymentOpErr popts.destination popts.asset popts.amount = some e2 →
        (createPaymentTransaction gw sdk pk popts).1
          = .error (.jsError ("Error creating payment transaction: " ++ jsToString e2)))
    ∧ (∀ acct e3, gw.loadAccount pk = .ok acct →
        sdk.changeTrustErr topts.asset topts.limit = some e3 →
        (createTrustlineTransaction gw sdk pk topts).1
          = .error (.jsError ("Error creating trustline transaction: " ++ jsToString e3))) := by
  refine ⟨?_, ?_, ?_⟩
  · intro e he
    unfold createPaymentTransaction horizonLoadAccount
    rw [he]
  · intro acct e2 hacct hop
    unfold createPaymentTransaction horizonLoadAccount
    rw [hacct]
    simp [hop]
  · intro acct e3 hacct htl
    unfold createTrustlineTransaction horizonLoadAccount
    rw [hacct]
    simp [htl]

/-- Counterexample for C9: a source account that cannot be loaded and a
malformed-amount intent produce literally identical error values — the
single generic `Error` class, with colliding message text (the external
SDK's message is unconstrained) — so the caller cannot distinguish the
AccountNotFound failure class from the InvalidIntent one. -/
theorem build_failure_wrapping_cex :
    gwNoAcct.loadAccount "GA" = .error { message := "Not Found", resultCodes := none }
    ∧ gwOk.loadAccount "GA" = .ok { accountId := "GA", sequence := 5, balances := [] }
    ∧ sdkBadAmount.paymentOpErr "GB" assetNative "abc"
        = some (.jsError "Error loading account: Error: Not Found")
    ∧ (createPaymentTransaction gwNoAcct sdkOk "GA" paymentOptsA).1
        = (createPaymentTransaction gwOk sdkBadAmount "GA" paymentOptsBadAmount).1
    ∧ (createPaymentTransaction gwNoAcct sdkOk "GA" paymentOptsA).1
        = .error (.jsError
            "Error creating payment transaction: Error: Error loading account: Error: Not Found") :=
  ⟨rfl, rfl, rfl, rfl, rfl⟩

/-- Witness for C9 (amended): the two wrapped build failures evaluated at
concrete inputs. -/
theorem build_failure_wrapping_witness :
    (createPaymentTransaction gwNoAcct sdkOk "GA" paymentOptsA).1
      = .error (.jsError
          "Error creating payment transaction: Error: Error loading account: Error: Not Found")
    ∧ (createPaymentTransaction gwOk sdkBadAmount "GA" paymentOptsBadAmount).1
      = .error (.jsError
          "Error creating payment transaction: Error: Error loading account: Error: Not Found") :=
  ⟨(build_failure_wrapping gwNoAcct sdkOk "GA" paymentOptsA trustOptsA).1
     { message := "Not Found", resultCodes := none } rfl,
   (build_failure_wrapping gwOk sdkBadAmount "GA" paymentOptsBadAmount trustOptsA).2.1
     { accountId := "GA", sequence := 5, balances := [] }
     (.jsError "Error loading account: Error: Not Found") rfl rfl⟩

end StellarSdk
